import Mathlib

/-
Verification of the MiraIO presign service.

The service (pkg/main.go) exposes a single HTTP handler, `presignHandler`,
that validates two query parameters, asks the storage client for a
presigned PUT URL, and composes a public URL from configuration.  We embed
the handler as a pure function of the configuration, the two parameters,
and the signing client (modelled as a function from signing requests to
signing results).  The embedding records every observable effect of one
invocation: the HTTP response, the signing call made (if any), the request
parameter structure built (if any), and the messages the handler emits to
the server-side logging sink.
-/

namespace Miraio

/-- Result of the storage signing client's presigned-PUT call
(`minioClient.PresignedPutObject`): either a signed URL or an error. -/
inductive SignResult where
  | ok (url : String)
  | err (msg : String)
  deriving DecidableEq, Repr

/-- The arguments the handler passes to `minioClient.PresignedPutObject`:
bucket, object key, and expiry (a Go `time.Duration`, in nanoseconds). -/
structure SignRequest where
  bucket : String
  objectKey : String
  expiryNanos : Nat
  deriving DecidableEq, Repr

/-- The configuration the handler reads: the package-level variables
`bucketName` and `publicURL`, populated once at startup from the
environment and never written afterwards. -/
structure Config where
  bucketName : String
  publicURL : String
  deriving DecidableEq, Repr

/-- An HTTP response as produced by `c.JSON`: a status code and a JSON
object body, modelled as an association list of string fields. -/
structure Response where
  status : Nat
  body : List (String × String)
  deriving DecidableEq, Repr

/-- Every observable effect of one handler invocation: the response sent,
the signing call issued to the storage client (if any), the
`reqParams` `url.Values` structure built (if any), and the messages the
handler writes to the server-side logging sink. -/
structure HandlerOutcome where
  response : Response
  signCall : Option SignRequest
  reqParams : Option (List (String × String))
  logs : List String
  deriving DecidableEq, Repr

/-- Go's `time.Minute`: 60 seconds of 10^9 nanoseconds each. -/
def timeMinute : Nat := 60 * 1000000000

/-- Shallow embedding of `presignHandler` (pkg/main.go lines 60-83).
`filename` and `contentType` are the values of `c.Query("filename")` and
`c.Query("type")`; `sign` is the storage client's presigned-PUT
capability.  The Go body contains no logging statement, so `logs` is
empty in every branch. -/
def presignHandler (cfg : Config) (filename contentType : String)
    (sign : SignRequest → SignResult) : HandlerOutcome :=
  if filename = "" ∨ contentType = "" then
    { response := ⟨400, [("error", "Missing filename or type")]⟩
      signCall := none
      reqParams := none
      logs := [] }
  else
    let reqParams : List (String × String) := [("Content-Type", contentType)]
    let req : SignRequest := ⟨cfg.bucketName, filename, timeMinute⟩
    match sign req with
    | .err _ =>
      { response := ⟨500, [("error", "Could not generate presigned URL")]⟩
        signCall := some req
        reqParams := some reqParams
        logs := [] }
    | .ok u =>
      { response := ⟨200, [("url", u),
          ("publicUrl", cfg.publicURL ++ "/" ++ cfg.bucketName ++ "/" ++ filename)]⟩
        signCall := some req
        reqParams := some reqParams
        logs := [] }

/-- Gin's `c.Query`: the query parameter's value, or the empty string when
the parameter is absent. -/
def query (v : Option String) : String := v.getD ""

/-- One handler invocation at the HTTP level: the two query parameters may
each be absent (`none`) or present with a value. -/
def handleRequest (cfg : Config) (filenameParam typeParam : Option String)
    (sign : SignRequest → SignResult) : HandlerOutcome :=
  presignHandler cfg (query filenameParam) (query typeParam) sign

/-- The process environment, filesystem and env-file loader as seen by
`LoadConfig`: `getenv` returns the empty string for unset variables (as
`os.Getenv` does), `fileExists` is the `os.Stat`/`os.IsNotExist` probe,
and `loadOk` tells whether `godotenv.Load` succeeds on a given file. -/
structure Sys where
  getenv : String → String
  fileExists : String → Bool
  loadOk : String → Bool

/-- The deployment-environment name: `MIRAIO_ENV`, defaulting to
"development" when unset. -/
def envName (sys : Sys) : String :=
  if sys.getenv "MIRAIO_ENV" = "" then "development" else sys.getenv "MIRAIO_ENV"

/-- The env file `LoadConfig` loads: `.env.<environment>` when that file
exists, otherwise `.env`. -/
def envFile (sys : Sys) : String :=
  if sys.fileExists (".env." ++ envName sys) then ".env." ++ envName sys else ".env"

/-- Whether configuration loading completes or terminates the process. -/
inductive LoadOutcome where
  | ok
  | fatal
  deriving DecidableEq, Repr

/-- Shallow embedding of `LoadConfig` (pkg/main.go lines 23-36): load the
selected env file; on failure, log fatally and exit. -/
def LoadConfig (sys : Sys) : LoadOutcome :=
  if sys.loadOk (envFile sys) then .ok else .fatal

/-- C1: whenever the `filename` query parameter or the `type` query
parameter is absent or equal to the empty string, the handler responds
with status 400 and a JSON body whose `error` field is exactly
"Missing filename or type". -/
theorem presign_missing_param_400 (cfg : Config) (fp tp : Option String)
    (sign : SignRequest → SignResult)
    (h : fp = none ∨ fp = some "" ∨ tp = none ∨ tp = some "") :
    (handleRequest cfg fp tp sign).response =
      ⟨400, [("error", "Missing filename or type")]⟩ := by
  rcases h with h | h | h | h <;> subst h <;>
    simp [handleRequest, query, presignHandler]

/-- Witness for C1: a concrete request with `filename` absent and `type`
present gets the 400 response. -/
theorem presign_missing_param_400_witness :
    (handleRequest ⟨"uploads", "http://localhost:9000"⟩ none (some "text/plain")
        (fun _ => .ok "https://signed")).response =
      ⟨400, [("error", "Missing filename or type")]⟩ :=
  presign_missing_param_400 _ _ _ _ (Or.inl rfl)

/-- C2: with both parameters non-empty and the signing client returning a
URL, the handler responds 200 with a `url` field equal to the signed URL
and a `publicUrl` field equal verbatim to
publicBaseURL ++ "/" ++ bucket ++ "/" ++ filename. -/
theorem presign_success_200 (cfg : Config) (f t u : String)
    (sign : SignRequest → SignResult)
    (hf : f ≠ "") (ht : t ≠ "")
    (hs : sign ⟨cfg.bucketName, f, timeMinute⟩ = .ok u) :
    (presignHandler cfg f t sign).response =
      ⟨200, [("url", u),
        ("publicUrl", cfg.publicURL ++ "/" ++ cfg.bucketName ++ "/" ++ f)]⟩ := by
  simp [presignHandler, hf, ht, hs]

/-- Witness for C2: the spec's concrete scenario — bucket `uploads`,
public base URL `http://localhost:9000`, filename `image.jpg` — yields
publicUrl "http://localhost:9000/uploads/image.jpg" exactly. -/
theorem presign_success_200_witness :
    (presignHandler ⟨"uploads", "http://localhost:9000"⟩ "image.jpg" "image/jpeg"
        (fun _ => .ok "https://signed.example/put")).response =
      ⟨200, [("url", "https://signed.example/put"),
        ("publicUrl", "http://localhost:9000/uploads/image.jpg")]⟩ := by
  have h := presign_success_200 ⟨"uploads", "http://localhost:9000"⟩
    "image.jpg" "image/jpeg" "https://signed.example/put"
    (fun _ => .ok "https://signed.example/put") (by decide) (by decide) rfl
  rw [h]; rfl

/-- C3: with both parameters non-empty and the signing client failing, the
handler responds 500 with the fixed body whose `error` field is
"Could not generate presigned URL"; the body is the same for every error
value `e`, so no text derived from the signing error appears in it. -/
theorem presign_sign_error_500 (cfg : Config) (f t e : String)
    (sign : SignRequest → SignResult)
    (hf : f ≠ "") (ht : t ≠ "")
    (hs : sign ⟨cfg.bucketName, f, timeMinute⟩ = .err e) :
    (presignHandler cfg f t sign).response =
      ⟨500, [("error", "Could not generate presigned URL")]⟩ := by
  simp [presignHandler, hf, ht, hs]

/-- Witness for C3: a concrete failing signing call yields the fixed 500
body, with no trace of the client's "connection refused" detail. -/
theorem presign_sign_error_500_witness :
    (presignHandler ⟨"uploads", "http://localhost:9000"⟩ "a.txt" "text/plain"
        (fun _ => .err "connection refused")).response =
      ⟨500, [("error", "Could not generate presigned URL")]⟩ :=
  presign_sign_error_500 ⟨"uploads", "http://localhost:9000"⟩ "a.txt" "text/plain"
    "connection refused" (fun _ => .err "connection refused")
    (by decide) (by decide) rfl

/-- C4: with both parameters non-empty, the handler calls the signing
client exactly once, for the object whose key is the requested filename,
in the configured bucket, with expiry exactly one minute
(`time.Minute` = 60 * 10^9 nanoseconds). -/
theorem presign_sign_request_exact (cfg : Config) (f t : String)
    (sign : SignRequest → SignResult)
    (hf : f ≠ "") (ht : t ≠ "") :
    (presignHandler cfg f t sign).signCall =
      some ⟨cfg.bucketName, f, timeMinute⟩ ∧ timeMinute = 60 * 1000000000 := by
  refine ⟨?_, rfl⟩
  cases hs : sign ⟨cfg.bucketName, f, timeMinute⟩ <;>
    simp [presignHandler, hf, ht, hs]

/-- Witness for C4: a concrete valid request issues the signing call for
key "a.txt" in bucket "uploads" with one-minute expiry. -/
theorem presign_sign_request_exact_witness :
    (presignHandler ⟨"uploads", "http://localhost:9000"⟩ "a.txt" "text/plain"
        (fun _ => .ok "https://signed")).signCall =
      some ⟨"uploads", "a.txt", timeMinute⟩ ∧ timeMinute = 60 * 1000000000 :=
  presign_sign_request_exact ⟨"uploads", "http://localhost:9000"⟩ "a.txt"
    "text/plain" (fun _ => .ok "https://signed") (by decide) (by decide)

/-- C5 counterexample: at a concrete valid request on which the signing
client fails with "connection refused", the handler emits nothing to the
server-side logging sink — refuting the claim that the underlying error
detail is logged. -/
theorem presign_error_not_logged_cex :
    (presignHandler ⟨"uploads", "http://localhost:9000"⟩ "a.txt" "text/plain"
        (fun _ => .err "connection refused")).logs = [] := rfl

/-- C5 amended: on a signing failure the handler sends only the generic
message to the caller and logs nothing — in fact no branch of the handler
emits any message to the logging sink. -/
theorem presign_never_logs (cfg : Config) (f t : String)
    (sign : SignRequest → SignResult) :
    (presignHandler cfg f t sign).logs = [] := by
  by_cases h : f = "" ∨ t = ""
  · simp [presignHandler, h]
  · cases hs : sign ⟨cfg.bucketName, f, timeMinute⟩ <;>
      simp [presignHandler, h, hs]

/-- C6: two valid requests that agree on the filename and the
configuration but differ in their content type issue the identical
signing call and produce the identical response (in particular the
identical publicUrl); the content type is captured only in the
`reqParams` structure, which is not part of the signing request. -/
theorem presign_type_independent (cfg : Config) (f t₁ t₂ : String)
    (sign : SignRequest → SignResult)
    (hf : f ≠ "") (ht₁ : t₁ ≠ "") (ht₂ : t₂ ≠ "") :
    (presignHandler cfg f t₁ sign).signCall =
      (presignHandler cfg f t₂ sign).signCall ∧
    (presignHandler cfg f t₁ sign).response =
      (presignHandler cfg f t₂ sign).response ∧
    (presignHandler cfg f t₁ sign).reqParams = some [("Content-Type", t₁)] ∧
    (presignHandler cfg f t₂ sign).reqParams = some [("Content-Type", t₂)] := by
  cases hs : sign ⟨cfg.bucketName, f, timeMinute⟩ <;>
    simp [presignHandler, hf, ht₁, ht₂, hs]

/-- Witness for C6: two concrete requests for the same file with content
types "image/png" and "text/plain" issue equal signing calls and equal
responses. -/
theorem presign_type_independent_witness :
    (presignHandler ⟨"uploads", "http://localhost:9000"⟩ "a.txt" "image/png"
        (fun _ => .ok "https://signed")).signCall =
      (presignHandler ⟨"uploads", "http://localhost:9000"⟩ "a.txt" "text/plain"
        (fun _ => .ok "https://signed")).signCall ∧
    (presignHandler ⟨"uploads", "http://localhost:9000"⟩ "a.txt" "image/png"
        (fun _ => .ok "https://signed")).response =
      (presignHandler ⟨"uploads", "http://localhost:9000"⟩ "a.txt" "text/plain"
        (fun _ => .ok "https://signed")).response ∧
    (presignHandler ⟨"uploads", "http://localhost:9000"⟩ "a.txt" "image/png"
        (fun _ => .ok "https://signed")).reqParams =
      some [("Content-Type", "image/png")] ∧
    (presignHandler ⟨"uploads", "http://localhost:9000"⟩ "a.txt" "text/plain"
        (fun _ => .ok "https://signed")).reqParams =
      some [("Content-Type", "text/plain")] :=
  presign_type_independent ⟨"uploads", "http://localhost:9000"⟩ "a.txt"
    "image/png" "text/plain" (fun _ => .ok "https://signed")
    (by decide) (by decide) (by decide)

/-- C7: a request rejected by input validation gets the 400 response with
no call to the signing client and nothing written to the logging sink. -/
theorem presign_validation_local (cfg : Config) (fp tp : Option String)
    (sign : SignRequest → SignResult)
    (h : fp = none ∨ fp = some "" ∨ tp = none ∨ tp = some "") :
    (handleRequest cfg fp tp sign).signCall = none ∧
    (handleRequest cfg fp tp sign).logs = [] ∧
    (handleRequest cfg fp tp sign).response.status = 400 := by
  rcases h with h | h | h | h <;> subst h <;>
    simp [handleRequest, query, presignHandler]

/-- Witness for C7: a concrete request with empty `filename` is rejected
locally, with no signing call and no log emission. -/
theorem presign_validation_local_witness :
    (handleRequest ⟨"uploads", "http://localhost:9000"⟩ (some "") (some "text/plain")
        (fun _ => .ok "https://signed")).signCall = none ∧
    (handleRequest ⟨"uploads", "http://localhost:9000"⟩ (some "") (some "text/plain")
        (fun _ => .ok "https://signed")).logs = [] ∧
    (handleRequest ⟨"uploads", "http://localhost:9000"⟩ (some "") (some "text/plain")
        (fun _ => .ok "https://signed")).response.status = 400 :=
  presign_validation_local _ _ _ _ (Or.inr (Or.inl rfl))

/-- C8: the handler is a pure function of the configuration, the two
parameters, and the signing call's outcome: two invocations with equal
configuration, equal inputs, and signing clients that agree on the one
request the handler makes produce identical outcomes in full. -/
theorem presign_pure_function (cfg₁ cfg₂ : Config) (f₁ f₂ t₁ t₂ : String)
    (sign₁ sign₂ : SignRequest → SignResult)
    (hcfg : cfg₁ = cfg₂) (hf : f₁ = f₂) (ht : t₁ = t₂)
    (hsign : sign₁ ⟨cfg₁.bucketName, f₁, timeMinute⟩ =
      sign₂ ⟨cfg₂.bucketName, f₂, timeMinute⟩) :
    presignHandler cfg₁ f₁ t₁ sign₁ = presignHandler cfg₂ f₂ t₂ sign₂ := by
  subst hcfg; subst hf; subst ht
  by_cases h : f₁ = "" ∨ t₁ = ""
  · simp [presignHandler, h]
  · cases hs : sign₁ ⟨cfg₁.bucketName, f₁, timeMinute⟩ <;>
      rw [hs] at hsign <;>
      simp [presignHandler, h, hs, hsign.symm]

/-- Witness for C8: two syntactically different signing clients that agree
on the handler's request give identical outcomes at a concrete input. -/
theorem presign_pure_function_witness :
    presignHandler ⟨"uploads", "http://localhost:9000"⟩ "a.txt" "text/plain"
        (fun _ => .ok "https://signed") =
      presignHandler ⟨"uploads", "http://localhost:9000"⟩ "a.txt" "text/plain"
        (fun r => if r.bucket = "uploads" then .ok "https://signed"
                  else .err "wrong bucket") :=
  presign_pure_function _ _ _ _ _ _ _ _ rfl rfl rfl (by decide)

/-- C9: the emptiness check is exact equality with "": a filename and type
consisting of a single space pass validation, the space is used verbatim
as the object key of the signing request, and it stands verbatim as the
final path segment of publicUrl. -/
theorem presign_whitespace_verbatim (cfg : Config)
    (sign : SignRequest → SignResult) :
    (presignHandler cfg " " " " sign).response.status ≠ 400 ∧
    (presignHandler cfg " " " " sign).signCall =
      some ⟨cfg.bucketName, " ", timeMinute⟩ ∧
    ∀ u : String, sign ⟨cfg.bucketName, " ", timeMinute⟩ = .ok u →
      (presignHandler cfg " " " " sign).response =
        ⟨200, [("url", u),
          ("publicUrl", cfg.publicURL ++ "/" ++ cfg.bucketName ++ "/" ++ " ")]⟩ := by
  refine ⟨?_, ?_, ?_⟩
  · cases hs : sign ⟨cfg.bucketName, " ", timeMinute⟩ <;>
      simp [presignHandler, hs]
  · cases hs : sign ⟨cfg.bucketName, " ", timeMinute⟩ <;>
      simp [presignHandler, hs]
  · intro u hu
    simp [presignHandler, hu]

/-- Witness for C9: at a concrete configuration and a signing client that
succeeds, the single-space filename passes validation and appears
verbatim in the signing call and in publicUrl. -/
theorem presign_whitespace_verbatim_witness :
    (presignHandler ⟨"uploads", "http://localhost:9000"⟩ " " " "
        (fun _ => .ok "https://signed")).response.status ≠ 400 ∧
    (presignHandler ⟨"uploads", "http://localhost:9000"⟩ " " " "
        (fun _ => .ok "https://signed")).signCall =
      some ⟨"uploads", " ", timeMinute⟩ ∧
    (presignHandler ⟨"uploads", "http://localhost:9000"⟩ " " " "
        (fun _ => .ok "https://signed")).response =
      ⟨200, [("url", "https://signed"),
        ("publicUrl", "http://localhost:9000" ++ "/" ++ "uploads" ++ "/" ++ " ")]⟩ :=
  ⟨(presign_whitespace_verbatim ⟨"uploads", "http://localhost:9000"⟩
      (fun _ => .ok "https://signed")).1,
   (presign_whitespace_verbatim ⟨"uploads", "http://localhost:9000"⟩
      (fun _ => .ok "https://signed")).2.1,
   (presign_whitespace_verbatim ⟨"uploads", "http://localhost:9000"⟩
      (fun _ => .ok "https://signed")).2.2 "https://signed" rfl⟩

/-- C10: if MIRAIO_ENV is unset the environment name defaults to
"development"; when the file .env.<environment> does not exist the loader
falls back to loading ".env", and in that case the process terminates
fatally exactly when that load fails. -/
theorem loadConfig_fallback (sys : Sys)
    (hmiss : sys.fileExists (".env." ++ envName sys) = false) :
    (sys.getenv "MIRAIO_ENV" = "" → envName sys = "development") ∧
    envFile sys = ".env" ∧
    (LoadConfig sys = .fatal ↔ sys.loadOk ".env" = false) := by
  refine ⟨fun h => ?_, ?_, ?_⟩
  · simp [envName, h]
  · simp [envFile, hmiss]
  · simp [LoadConfig, envFile, hmiss]

/-- Witness for C10: a concrete system with MIRAIO_ENV unset, no
.env.development file, and a failing ".env" load terminates fatally. -/
theorem loadConfig_fallback_witness :
    (Sys.mk (fun _ => "") (fun _ => false) (fun _ => false)).fileExists
        (".env." ++ envName (Sys.mk (fun _ => "") (fun _ => false) (fun _ => false)))
        = false ∧
    envName (Sys.mk (fun _ => "") (fun _ => false) (fun _ => false)) = "development" ∧
    envFile (Sys.mk (fun _ => "") (fun _ => false) (fun _ => false)) = ".env" ∧
    LoadConfig (Sys.mk (fun _ => "") (fun _ => false) (fun _ => false)) = .fatal :=
  ⟨rfl,
   (loadConfig_fallback _ rfl).1 rfl,
   (loadConfig_fallback _ rfl).2.1,
   (loadConfig_fallback _ rfl).2.2.mpr rfl⟩

end Miraio
